import Mathlib

set_option linter.unusedVariables false

/-!
Verification of the HandDetector module (HandTrackingModule.py).

The module is shallowly embedded: the detector's mutable attribute
self.results becomes an explicit state that every method receives and
returns, Python exceptions (ValueError, IndexError) become an Except
layer, numeric values are rationals, Python's float sqrt is Real.sqrt,
Python's int() truncation toward zero is pyInt, and Python list
indexing (with negative-index wraparound) is pyGet.  The external
mediapipe process() call is modelled by passing its output for the
current frame as an explicit argument to find_hands.  Drawing
primitives mutate pixel buffers in place and return the same object,
so on the level of this model (which does not track pixel contents)
they are the identity on the frame handle.
-/

deriving instance DecidableEq for Except

/-- Python exceptions raised by the module: ValueError for invalid
frames (the specification's InvalidInputError) and IndexError for
out-of-range element access. -/
inductive PyError where
  | valueError : PyError
  | indexError : PyError
  deriving DecidableEq

/-- One mediapipe landmark, exposing normalized .x and .y coordinates
(the depth component is never read by the module and is omitted). -/
structure Landmark where
  x : ℚ
  y : ℚ
  deriving DecidableEq

/-- One detected hand as mediapipe returns it: an object whose
field named landmark is the ordered list of its landmarks. -/
structure HandLandmarks where
  landmark : List Landmark
  deriving DecidableEq

/-- Output of one mediapipe process() invocation: the attribute
multi_hand_landmarks is either None (no hands) or a list of hands. -/
structure MPResults where
  multi_hand_landmarks : Option (List HandLandmarks)
  deriving DecidableEq

/-- A numpy image; only its shape tuple is inspected by the module,
so only the shape is modelled. -/
structure Image where
  shape : List Nat
  deriving DecidableEq

/-- The HandDetector state relevant to the claims: the results
attribute, which is absent (none) before the first find_hands call
(the code guards on hasattr). -/
structure HandDetector where
  results : Option MPResults
  deriving DecidableEq

/-- Python int() applied to a rational: truncation toward zero. -/
def pyInt (q : ℚ) : Int :=
  if 0 ≤ q then ⌊q⌋ else -⌊-q⌋

/-- Python list indexing l[i]: a negative index counts from the end;
an effective index outside the list raises IndexError. -/
def pyGet {α : Type} (l : List α) (i : Int) : Except PyError α :=
  if 0 ≤ (if i < 0 then i + l.length else i) then
    match l.get? (if i < 0 then i + l.length else i).toNat with
    | some a => Except.ok a
    | none => Except.error PyError.indexError
  else Except.error PyError.indexError

/-- HandDetector.find_hands.  Raises ValueError if the image is None,
or if its shape does not have length 3, or if its third shape entry
(the channel count) is not 3.  Otherwise it converts the color space
(not observable here), submits the frame to mediapipe, whose output
for this invocation is the argument processResult, stores that output
in self.results unconditionally, optionally draws the skeletons in
place, and returns the (same) image. -/
def find_hands (self : HandDetector) (image : Option Image)
    (processResult : MPResults) (draw : Bool) :
    Except PyError (HandDetector × Image) :=
  match image with
  | none => Except.error PyError.valueError
  | some img =>
    if img.shape.length ≠ 3 then Except.error PyError.valueError
    else if img.shape.get? 2 ≠ some 3 then Except.error PyError.valueError
    else Except.ok ({ results := some processResult }, img)

/-- Loop body of HandDetector.find_position: for landmark_id, landmark
in enumerate(...), append [landmark_id, int(x*width), int(y*height)].
The counter i is the running value of landmark_id. -/
def landmarkLoop (height width : Nat) (lms : List Landmark) (i : Nat) :
    List (List Int) :=
  match lms with
  | [] => []
  | lm :: rest =>
    [(i : Int), pyInt (lm.x * width), pyInt (lm.y * height)] ::
      landmarkLoop height width rest (i + 1)

/-- HandDetector.find_position.  Returns [] if the results attribute
is absent, or multi_hand_landmarks is falsy (None or the empty list),
or hand_number is at least the number of hands.  Otherwise it selects
the hand with Python indexing (negative hand_number wraps around) and
maps each landmark to [landmark_id, int(x*width), int(y*height)].
The shape unpacking (height, width, channels = image.shape) happens
inside the loop, so it is only reached when the selected hand has at
least one landmark; a shape that is not a triple raises ValueError
there.  The detector state is returned unchanged. -/
def find_position (self : HandDetector) (image : Image)
    (hand_number : Int) (draw : Bool) :
    Except PyError (HandDetector × List (List Int)) :=
  match self.results with
  | none => Except.ok (self, [])
  | some results =>
    match results.multi_hand_landmarks with
    | none => Except.ok (self, [])
    | some hands =>
      if hands.isEmpty then Except.ok (self, [])
      else if (hands.length : Int) ≤ hand_number then Except.ok (self, [])
      else
        match pyGet hands hand_number with
        | Except.error e => Except.error e
        | Except.ok hand_landmarks =>
          if hand_landmarks.landmark.isEmpty then Except.ok (self, [])
          else
            match image.shape with
            | [height, width, _channels] =>
              Except.ok (self, landmarkLoop height width hand_landmarks.landmark 0)
            | _ => Except.error PyError.valueError

/-- Coordinate extraction in HandDetector.find_distance: a point of
length 3 yields its elements 1 and 2; any other point yields its
elements 0 and 1, raising IndexError when those are missing. -/
def extractCoords (point : List ℚ) : Except PyError (ℚ × ℚ) :=
  if point.length = 3 then
    match point.get? 1, point.get? 2 with
    | some x, some y => Except.ok (x, y)
    | _, _ => Except.error PyError.indexError
  else
    match point.get? 0, point.get? 1 with
    | some x, some y => Except.ok (x, y)
    | _, _ => Except.error PyError.indexError

/-- HandDetector.find_distance.  Extracts (x1,y1) from point1 and
(x2,y2) from point2 by the length rule, computes
math.sqrt((x2-x1)**2 + (y2-y1)**2), optionally draws a line and two
markers on the image in place (identity on the frame handle in this
model, and skipped entirely when the image is None), and returns the
distance, the image argument as passed, and [x1, y1, x2, y2].  The
detector state is returned unchanged. -/
noncomputable def find_distance (self : HandDetector)
    (point1 point2 : List ℚ) (image : Option Image) (draw : Bool) :
    Except PyError (HandDetector × ℝ × Option Image × List ℚ) :=
  match extractCoords point1 with
  | Except.error e => Except.error e
  | Except.ok (x1, y1) =>
    match extractCoords point2 with
    | Except.error e => Except.error e
    | Except.ok (x2, y2) =>
      Except.ok (self,
        Real.sqrt (((x2 - x1) ^ 2 + (y2 - y1) ^ 2 : ℚ) : ℝ),
        image, [x1, y1, x2, y2])

/-- Distance component of a find_distance result, none on error. -/
def distOf (r : Except PyError (HandDetector × ℝ × Option Image × List ℚ)) :
    Option ℝ :=
  match r with
  | Except.ok (_, d, _, _) => some d
  | Except.error _ => none

/-- Coordinate-list component of a find_distance result. -/
def coordsOf (r : Except PyError (HandDetector × ℝ × Option Image × List ℚ)) :
    Option (List ℚ) :=
  match r with
  | Except.ok (_, _, _, c) => some c
  | Except.error _ => none

/-- A detector holding exactly one cached hand with the single
normalized landmark (x, y); used as concrete input in several
theorems. -/
def singlePointDetector (x y : ℚ) : HandDetector :=
  ⟨some ⟨some [⟨[⟨x, y⟩]⟩]⟩⟩

/-- Extraction on a two-element point takes elements 0 and 1. -/
theorem extractCoords_pair (x y : ℚ) :
    extractCoords [x, y] = Except.ok (x, y) := rfl

/-- Extraction on a three-element point ignores element 0. -/
theorem extractCoords_triple (a x y : ℚ) :
    extractCoords [a, x, y] = Except.ok (x, y) := rfl

/-- Evaluation of find_distance on two plain (x, y) points. -/
theorem find_distance_pair_eq (self : HandDetector) (img : Option Image)
    (draw : Bool) (x1 y1 x2 y2 : ℚ) :
    find_distance self [x1, y1] [x2, y2] img draw =
      Except.ok (self,
        Real.sqrt (((x2 - x1) ^ 2 + (y2 - y1) ^ 2 : ℚ) : ℝ),
        img, [x1, y1, x2, y2]) := by
  simp [find_distance, extractCoords_pair]

/-- C1: for input points of length exactly 2 or exactly 3,
find_distance extracts coordinates by the length rule (elements 1,2
of a length-3 point, elements 0,1 of a length-2 point), returns the
distance sqrt((x2-x1)^2 + (y2-y1)^2) and the coordinate list
[x1, y1, x2, y2]; in particular distance([0,0],[3,4]) = 5 and
distance([0,0],[5,12]) = 13. -/
theorem find_distance_extraction_correct :
    (∀ (self : HandDetector) (img : Option Image) (draw : Bool)
        (id1 id2 x1 y1 x2 y2 : ℚ),
      find_distance self [id1, x1, y1] [id2, x2, y2] img draw =
        Except.ok (self,
          Real.sqrt (((x2 - x1) ^ 2 + (y2 - y1) ^ 2 : ℚ) : ℝ),
          img, [x1, y1, x2, y2]) ∧
      find_distance self [x1, y1] [id2, x2, y2] img draw =
        Except.ok (self,
          Real.sqrt (((x2 - x1) ^ 2 + (y2 - y1) ^ 2 : ℚ) : ℝ),
          img, [x1, y1, x2, y2]) ∧
      find_distance self [id1, x1, y1] [x2, y2] img draw =
        Except.ok (self,
          Real.sqrt (((x2 - x1) ^ 2 + (y2 - y1) ^ 2 : ℚ) : ℝ),
          img, [x1, y1, x2, y2]) ∧
      find_distance self [x1, y1] [x2, y2] img draw =
        Except.ok (self,
          Real.sqrt (((x2 - x1) ^ 2 + (y2 - y1) ^ 2 : ℚ) : ℝ),
          img, [x1, y1, x2, y2])) ∧
    (∀ (self : HandDetector),
      distOf (find_distance self [0, 0] [3, 4] none true) = some 5) ∧
    (∀ (self : HandDetector),
      distOf (find_distance self [0, 0] [5, 12] none true) = some 13) := by
  refine ⟨fun self img draw id1 id2 x1 y1 x2 y2 => ?_, fun self => ?_, fun self => ?_⟩
  · refine ⟨?_, ?_, ?_, ?_⟩ <;>
      simp [find_distance, extractCoords_pair, extractCoords_triple]
  · rw [find_distance_pair_eq self none true 0 0 3 4]
    have h25 : ((((3 : ℚ) - 0) ^ 2 + ((4 : ℚ) - 0) ^ 2 : ℚ) : ℝ) = 5 ^ 2 := by
      norm_num
    simp only [distOf, h25, Real.sqrt_sq (by norm_num : (0 : ℝ) ≤ 5)]
  · rw [find_distance_pair_eq self none true 0 0 5 12]
    have h169 : ((((5 : ℚ) - 0) ^ 2 + ((12 : ℚ) - 0) ^ 2 : ℚ) : ℝ) = 13 ^ 2 := by
      norm_num
    simp only [distOf, h169, Real.sqrt_sq (by norm_num : (0 : ℝ) ≤ 13)]

/-- Evaluation of find_distance from the extraction results of the
two points. -/
theorem find_distance_eval (self : HandDetector) (img : Option Image)
    (draw : Bool) (p1 p2 : List ℚ) (x1 y1 x2 y2 : ℚ)
    (h1 : extractCoords p1 = Except.ok (x1, y1))
    (h2 : extractCoords p2 = Except.ok (x2, y2)) :
    find_distance self p1 p2 img draw =
      Except.ok (self,
        Real.sqrt (((x2 - x1) ^ 2 + (y2 - y1) ^ 2 : ℚ) : ℝ),
        img, [x1, y1, x2, y2]) := by
  simp [find_distance, h1, h2]

/-- A point of length 2 or 3 is literally a two- or three-element
list. -/
theorem valid_point_cases (p : List ℚ) (h : p.length = 2 ∨ p.length = 3) :
    (∃ x y, p = [x, y]) ∨ ∃ a x y, p = [a, x, y] := by
  rcases h with h | h
  · exact Or.inl (List.length_eq_two.mp h)
  · exact Or.inr (List.length_eq_three.mp h)

/-- The square root of the summed squared differences is symmetric in
the two points. -/
theorem sqrt_sq_add_sq_symm (x1 y1 x2 y2 : ℚ) :
    Real.sqrt (((x2 - x1) ^ 2 + (y2 - y1) ^ 2 : ℚ) : ℝ) =
      Real.sqrt (((x1 - x2) ^ 2 + (y1 - y2) ^ 2 : ℚ) : ℝ) := by
  congr 1
  push_cast
  ring

/-- C2: the distance computed by find_distance is symmetric under
swapping the two point arguments, and the distance from a valid point
to itself is 0. -/
theorem find_distance_symm_and_self :
    (∀ (self : HandDetector) (img : Option Image) (draw : Bool)
        (p1 p2 : List ℚ),
      (p1.length = 2 ∨ p1.length = 3) → (p2.length = 2 ∨ p2.length = 3) →
      distOf (find_distance self p1 p2 img draw) =
        distOf (find_distance self p2 p1 img draw)) ∧
    (∀ (self : HandDetector) (img : Option Image) (draw : Bool)
        (p : List ℚ),
      (p.length = 2 ∨ p.length = 3) →
      distOf (find_distance self p p img draw) = some 0) := by
  have hpt : ∀ (p : List ℚ), (p.length = 2 ∨ p.length = 3) →
      ∃ x y, extractCoords p = Except.ok (x, y) := by
    intro p h
    rcases valid_point_cases p h with ⟨x, y, rfl⟩ | ⟨a, x, y, rfl⟩
    · exact ⟨x, y, extractCoords_pair x y⟩
    · exact ⟨x, y, extractCoords_triple a x y⟩
  constructor
  · intro self img draw p1 p2 h1 h2
    obtain ⟨x1, y1, he1⟩ := hpt p1 h1
    obtain ⟨x2, y2, he2⟩ := hpt p2 h2
    rw [find_distance_eval self img draw p1 p2 x1 y1 x2 y2 he1 he2,
        find_distance_eval self img draw p2 p1 x2 y2 x1 y1 he2 he1]
    simp only [distOf]
    exact congrArg some (sqrt_sq_add_sq_symm x1 y1 x2 y2)
  · intro self img draw p h
    obtain ⟨x, y, he⟩ := hpt p h
    rw [find_distance_eval self img draw p p x y x y he he]
    simp only [distOf]
    have h0 : (((x - x) ^ 2 + (y - y) ^ 2 : ℚ) : ℝ) = 0 := by
      push_cast
      ring
    rw [h0, Real.sqrt_zero]

/-- Witness for C2 at the concrete points [0,0], [3,4] and [1,2]. -/
theorem find_distance_symm_and_self_witness :
    ((([(0 : ℚ), 0] : List ℚ).length = 2 ∨ ([(0 : ℚ), 0] : List ℚ).length = 3) ∧
     (([(3 : ℚ), 4] : List ℚ).length = 2 ∨ ([(3 : ℚ), 4] : List ℚ).length = 3)) ∧
    distOf (find_distance ⟨none⟩ [0, 0] [3, 4] none true) =
      distOf (find_distance ⟨none⟩ [3, 4] [0, 0] none true) ∧
    distOf (find_distance ⟨none⟩ [1, 2] [1, 2] none false) = some 0 :=
  ⟨⟨Or.inl rfl, Or.inl rfl⟩,
   find_distance_symm_and_self.1 ⟨none⟩ none true [0, 0] [3, 4]
     (Or.inl rfl) (Or.inl rfl),
   find_distance_symm_and_self.2 ⟨none⟩ none false [1, 2] (Or.inl rfl)⟩

/-- C3: the identifier element of a length-3 point is ignored by
find_distance, in either argument position, and in particular
distance([id,100,200],[8,150,180]) equals
distance([100,200],[150,180]) for every identifier value. -/
theorem find_distance_id_ignored :
    (∀ (self : HandDetector) (img : Option Image) (draw : Bool)
        (a x y : ℚ) (p2 : List ℚ),
      find_distance self [a, x, y] p2 img draw =
        find_distance self [x, y] p2 img draw) ∧
    (∀ (self : HandDetector) (img : Option Image) (draw : Bool)
        (a x y : ℚ) (p1 : List ℚ),
      find_distance self p1 [a, x, y] img draw =
        find_distance self p1 [x, y] img draw) ∧
    (∀ (a : ℚ) (self : HandDetector),
      distOf (find_distance self [a, 100, 200] [8, 150, 180] none true) =
        distOf (find_distance self [100, 200] [150, 180] none true)) := by
  have h1 : ∀ (self : HandDetector) (img : Option Image) (draw : Bool)
      (a x y : ℚ) (p2 : List ℚ),
      find_distance self [a, x, y] p2 img draw =
        find_distance self [x, y] p2 img draw := by
    intro self img draw a x y p2
    simp [find_distance, extractCoords_triple, extractCoords_pair]
  have h2 : ∀ (self : HandDetector) (img : Option Image) (draw : Bool)
      (a x y : ℚ) (p1 : List ℚ),
      find_distance self p1 [a, x, y] img draw =
        find_distance self p1 [x, y] img draw := by
    intro self img draw a x y p1
    cases he : extractCoords p1 with
    | error e => simp [find_distance, he]
    | ok v =>
      obtain ⟨x1, y1⟩ := v
      simp [find_distance, he, extractCoords_triple, extractCoords_pair]
  refine ⟨h1, h2, fun a self => ?_⟩
  rw [h1 self none true a 100 200 [8, 150, 180],
      h2 self none true 8 150 180 [100, 200]]

/-- Extraction on a point of length at least 2 and different from 3
takes elements 0 and 1, exactly as on a two-element point. -/
theorem extractCoords_cons_cons (a b : ℚ) (rest : List ℚ)
    (h : (a :: b :: rest).length ≠ 3) :
    extractCoords (a :: b :: rest) = Except.ok (a, b) := by
  unfold extractCoords
  rw [if_neg h]
  rfl

/-- C4 counterexample: the malformed length-4 point [1,2,3,4] is not
rejected; find_distance silently treats it as the point (1,2) and
returns a distance, rather than failing with an invalid-input
error. -/
theorem find_distance_length_four_not_rejected :
    find_distance ⟨none⟩ [1, 2, 3, 4] [0, 0] none true =
      Except.ok (⟨none⟩,
        Real.sqrt ((((0 : ℚ) - 1) ^ 2 + ((0 : ℚ) - 2) ^ 2 : ℚ) : ℝ),
        none, [1, 2, 0, 0]) := by
  have h1 : extractCoords [1, 2, 3, 4] = Except.ok (1, 2) :=
    extractCoords_cons_cons 1 2 [3, 4] (by decide)
  exact find_distance_eval ⟨none⟩ none true [1, 2, 3, 4] [0, 0] 1 2 0 0
    h1 (extractCoords_pair 0 0)

/-- C4 amended: points whose length is neither 2 nor 3 are not
rejected with an invalid-input error; any point of length at least 2
and different from 3 is silently treated as a plain (x, y) point via
its elements 0 and 1 (in either argument position), while points of
length 0 or 1 raise IndexError from the element access. -/
theorem find_distance_malformed_points_behavior :
    (∀ (self : HandDetector) (img : Option Image) (draw : Bool)
        (a b : ℚ) (rest : List ℚ) (p2 : List ℚ),
      (a :: b :: rest).length ≠ 3 →
      find_distance self (a :: b :: rest) p2 img draw =
        find_distance self [a, b] p2 img draw) ∧
    (∀ (self : HandDetector) (img : Option Image) (draw : Bool)
        (a b : ℚ) (rest : List ℚ) (p1 : List ℚ),
      (a :: b :: rest).length ≠ 3 →
      find_distance self p1 (a :: b :: rest) img draw =
        find_distance self p1 [a, b] img draw) ∧
    (∀ (self : HandDetector) (img : Option Image) (draw : Bool)
        (p2 : List ℚ),
      find_distance self [] p2 img draw =
        Except.error PyError.indexError) ∧
    (∀ (self : HandDetector) (img : Option Image) (draw : Bool)
        (a : ℚ) (p2 : List ℚ),
      find_distance self [a] p2 img draw =
        Except.error PyError.indexError) := by
  refine ⟨?_, ?_, ?_, ?_⟩
  · intro self img draw a b rest p2 h
    simp [find_distance, extractCoords_cons_cons a b rest h,
      extractCoords_pair]
  · intro self img draw a b rest p1 h
    cases he : extractCoords p1 with
    | error e => simp [find_distance, he]
    | ok v =>
      obtain ⟨x1, y1⟩ := v
      simp [find_distance, he, extractCoords_cons_cons a b rest h,
        extractCoords_pair]
  · intro self img draw p2
    rfl
  · intro self img draw a p2
    rfl

/-- Witness for C4 amended at the length-4 point [1,2,3,4]. -/
theorem find_distance_malformed_points_behavior_witness :
    (([(1 : ℚ), 2, 3, 4] : List ℚ).length ≠ 3) ∧
    find_distance ⟨none⟩ [1, 2, 3, 4] [9, 9] none true =
      find_distance ⟨none⟩ [1, 2] [9, 9] none true :=
  ⟨by decide,
   find_distance_malformed_points_behavior.1 ⟨none⟩ none true 1 2 [3, 4]
     [9, 9] (by decide)⟩

/-- Python indexing at a natural-number index is plain list lookup. -/
theorem pyGet_natCast {α : Type} (l : List α) (i : Nat) :
    pyGet l (i : Int) =
      match l.get? i with
      | some a => Except.ok a
      | none => Except.error PyError.indexError := by
  have h0 : ¬((i : Int) < 0) := not_lt.mpr (Int.ofNat_nonneg i)
  simp only [pyGet, if_neg h0, if_pos (Int.ofNat_nonneg i), Int.toNat_ofNat]

/-- A successful Python lookup returns an element of the list. -/
theorem pyGet_mem {α : Type} {l : List α} {i : Int} {a : α}
    (h : pyGet l i = Except.ok a) : a ∈ l := by
  unfold pyGet at h
  by_cases hc : 0 ≤ (if i < 0 then i + (l.length : Int) else i)
  · rw [if_pos hc] at h
    cases hg : l.get? (if i < 0 then i + (l.length : Int) else i).toNat with
    | none =>
      rw [hg] at h
      exact Except.noConfusion h
    | some b =>
      rw [hg] at h
      injection h with h2
      exact h2 ▸ List.get?_mem hg
  · rw [if_neg hc] at h
    exact Except.noConfusion h

/-- Length of the find_position loop output. -/
theorem landmarkLoop_length (height width : Nat) (lms : List Landmark)
    (i : Nat) : (landmarkLoop height width lms i).length = lms.length := by
  induction lms generalizing i with
  | nil => rfl
  | cons lm rest ih => simp [landmarkLoop, ih]

/-- Entry j of the find_position loop output started at counter i. -/
theorem landmarkLoop_get? (height width : Nat) (lms : List Landmark)
    (i j : Nat) :
    (landmarkLoop height width lms i).get? j =
      (lms.get? j).map (fun lm =>
        [((i + j : Nat) : Int), pyInt (lm.x * width), pyInt (lm.y * height)]) := by
  induction lms generalizing i j with
  | nil => simp [landmarkLoop]
  | cons lm rest ih =>
    cases j with
    | zero => simp [landmarkLoop]
    | succ j =>
      have hij : i + 1 + j = i + (j + 1) := by omega
      simp only [landmarkLoop, List.get?, ih, hij]

/-- C5 counterexample: with exactly one cached hand (so the valid
range of hand indices is [0, 1)), the out-of-range hand index -1 does
not yield the empty sequence: Python negative indexing selects the
last hand and 21-style entries are produced (here one entry for the
one-landmark test hand). -/
theorem find_position_negative_index_not_empty :
    find_position (singlePointDetector (1/2) (1/2)) ⟨[10, 10, 3]⟩ (-1) false =
      Except.ok (singlePointDetector (1/2) (1/2), [[0, 5, 5]]) := by
  norm_num [find_position, singlePointDetector, pyGet, landmarkLoop, pyInt]

/-- C5 amended: find_position returns the empty list and raises no
error when no detection result is cached, when the cached result has
a falsy hand list (None or empty), or when hand_number is at least
the number of detected hands; in particular with one detected hand,
hand index 1 yields the empty list.  (A negative hand_number instead
follows Python negative indexing.) -/
theorem find_position_tolerant_empty :
    (∀ (img : Image) (i : Int) (draw : Bool),
      find_position ⟨none⟩ img i draw = Except.ok (⟨none⟩, [])) ∧
    (∀ (img : Image) (i : Int) (draw : Bool),
      find_position ⟨some ⟨none⟩⟩ img i draw =
        Except.ok (⟨some ⟨none⟩⟩, [])) ∧
    (∀ (img : Image) (i : Int) (draw : Bool),
      find_position ⟨some ⟨some []⟩⟩ img i draw =
        Except.ok (⟨some ⟨some []⟩⟩, [])) ∧
    (∀ (hands : List HandLandmarks) (img : Image) (i : Int) (draw : Bool),
      (hands.length : Int) ≤ i →
      find_position ⟨some ⟨some hands⟩⟩ img i draw =
        Except.ok (⟨some ⟨some hands⟩⟩, [])) ∧
    (∀ (hand : HandLandmarks) (img : Image) (draw : Bool),
      find_position ⟨some ⟨some [hand]⟩⟩ img 1 draw =
        Except.ok (⟨some ⟨some [hand]⟩⟩, [])) := by
  have h4 : ∀ (hands : List HandLandmarks) (img : Image) (i : Int)
      (draw : Bool), (hands.length : Int) ≤ i →
      find_position ⟨some ⟨some hands⟩⟩ img i draw =
        Except.ok (⟨some ⟨some hands⟩⟩, []) := by
    intro hands img i draw hlen
    by_cases hN : hands.isEmpty
    · simp [find_position, hN]
    · simp [find_position, hN, hlen]
  refine ⟨fun img i draw => rfl, fun img i draw => rfl, fun img i draw => rfl,
    h4, fun hand img draw => ?_⟩
  exact h4 [hand] img 1 draw (by simp)

/-- Witness for C5 amended: one cached hand queried at hand index 1. -/
theorem find_position_tolerant_empty_witness :
    ((([⟨[⟨1/2, 1/2⟩]⟩] : List HandLandmarks).length : Int) ≤ 2) ∧
    find_position ⟨some ⟨some [⟨[⟨1/2, 1/2⟩]⟩]⟩⟩ ⟨[10, 10, 3]⟩ 2 false =
      Except.ok (⟨some ⟨some [⟨[⟨1/2, 1/2⟩]⟩]⟩⟩, []) :=
  ⟨by decide,
   find_position_tolerant_empty.2.2.2.1 [⟨[⟨1/2, 1/2⟩]⟩] ⟨[10, 10, 3]⟩ 2 false
     (by decide)⟩

/-- C6: for a cached detection whose selected hand skeleton has
exactly 21 normalized points, find_position returns exactly 21
entries in skeleton order, entry j being
[j, int(x_j * width), int(y_j * height)] (so the landmark id of each
entry equals its position); moreover, whenever every cached skeleton
has 21 points, a successful find_position never returns a list of any
non-zero length other than 21. -/
theorem find_position_21_entries :
    (∀ (hands : List HandLandmarks) (i : Nat) (hand : HandLandmarks)
        (height width channels : Nat) (draw : Bool),
      hands.get? i = some hand →
      hand.landmark.length = 21 →
      ∃ out,
        find_position ⟨some ⟨some hands⟩⟩ ⟨[height, width, channels]⟩
            (i : Int) draw =
          Except.ok (⟨some ⟨some hands⟩⟩, out) ∧
        out.length = 21 ∧
        ∀ (j : Nat) (lm : Landmark), hand.landmark.get? j = some lm →
          out.get? j =
            some [(j : Int), pyInt (lm.x * width), pyInt (lm.y * height)]) ∧
    (∀ (self : HandDetector) (img : Image) (hn : Int) (draw : Bool)
        (d : HandDetector) (out : List (List Int)),
      (∀ r hands hand, self.results = some r →
        r.multi_hand_landmarks = some hands → hand ∈ hands →
        hand.landmark.length = 21) →
      find_position self img hn draw = Except.ok (d, out) →
      out.length = 0 ∨ out.length = 21) := by
  constructor
  · intro hands i hand height width channels draw hi h21
    obtain ⟨hlt, -⟩ := List.get?_eq_some.mp hi
    have hEmp : hands.isEmpty = false := by
      cases hands with
      | nil => simp at hlt
      | cons a l => rfl
    have hle : ¬((hands.length : Int) ≤ (i : Int)) :=
      not_le.mpr (Int.ofNat_lt.mpr hlt)
    have hlmEmp : hand.landmark.isEmpty = false := by
      cases hlm : hand.landmark with
      | nil => rw [hlm] at h21; simp at h21
      | cons a l => rfl
    refine ⟨landmarkLoop height width hand.landmark 0, ?_, ?_, ?_⟩
    · simp only [find_position, hEmp, hle, if_false, Bool.false_eq_true,
        pyGet_natCast, hi, hlmEmp]
    · rw [landmarkLoop_length, h21]
    · intro j lm hlm
      rw [landmarkLoop_get?, hlm]
      simp
  · intro self img hn draw d out hall hfp
    obtain ⟨res⟩ := self
    cases res with
    | none =>
      injection hfp with hfp2
      injection hfp2 with hd hout
      rw [← hout]
      exact Or.inl rfl
    | some r =>
      obtain ⟨multi⟩ := r
      cases multi with
      | none =>
        injection hfp with hfp2
        injection hfp2 with hd hout
        rw [← hout]
        exact Or.inl rfl
      | some hands =>
        simp only [find_position] at hfp
        by_cases hN : hands.isEmpty
        · rw [if_pos hN] at hfp
          injection hfp with hfp2
          injection hfp2 with hd hout
          rw [← hout]
          exact Or.inl rfl
        · rw [if_neg hN] at hfp
          by_cases hL : (hands.length : Int) ≤ hn
          · rw [if_pos hL] at hfp
            injection hfp with hfp2
            injection hfp2 with hd hout
            rw [← hout]
            exact Or.inl rfl
          · rw [if_neg hL] at hfp
            cases hpg : pyGet hands hn with
            | error e =>
              simp only [hpg] at hfp
              exact Except.noConfusion hfp
            | ok hand =>
              simp only [hpg] at hfp
              have hmem : hand ∈ hands := pyGet_mem hpg
              have h21 : hand.landmark.length = 21 :=
                hall ⟨some hands⟩ hands hand rfl rfl hmem
              by_cases hE : hand.landmark.isEmpty
              · rw [if_pos hE] at hfp
                injection hfp with hfp2
                injection hfp2 with hd hout
                rw [← hout]
                exact Or.inl rfl
              · rw [if_neg hE] at hfp
                cases hs : img.shape with
                | nil =>
                  simp only [hs] at hfp
                  exact Except.noConfusion hfp
                | cons s1 rest1 =>
                  cases rest1 with
                  | nil =>
                    simp only [hs] at hfp
                    exact Except.noConfusion hfp
                  | cons s2 rest2 =>
                    cases rest2 with
                    | nil =>
                      simp only [hs] at hfp
                      exact Except.noConfusion hfp
                    | cons s3 rest3 =>
                      cases rest3 with
                      | nil =>
                        simp only [hs] at hfp
                        injection hfp with hfp2
                        injection hfp2 with hd hout
                        rw [← hout, landmarkLoop_length, h21]
                        exact Or.inr rfl
                      | cons s4 rest4 =>
                        simp only [hs] at hfp
                        exact Except.noConfusion hfp

/-- A concrete 21-point skeleton used as witness input. -/
def hand21 : HandLandmarks :=
  ⟨List.replicate 21 ⟨1/2, 1/2⟩⟩

/-- Witness for C6 on a concrete single-hand detection whose skeleton
has 21 points. -/
theorem find_position_21_entries_witness :
    (([hand21] : List HandLandmarks).get? 0 = some hand21 ∧
      hand21.landmark.length = 21) ∧
    (∃ out,
      find_position ⟨some ⟨some [hand21]⟩⟩ ⟨[480, 640, 3]⟩
          ((0 : Nat) : Int) false =
        Except.ok (⟨some ⟨some [hand21]⟩⟩, out) ∧
      out.length = 21 ∧
      ∀ (j : Nat) (lm : Landmark), hand21.landmark.get? j = some lm →
        out.get? j =
          some [(j : Int), pyInt (lm.x * (640 : Nat)),
            pyInt (lm.y * (480 : Nat))]) ∧
    ((landmarkLoop 480 640 hand21.landmark 0).length = 0 ∨
      (landmarkLoop 480 640 hand21.landmark 0).length = 21) := by
  refine ⟨⟨rfl, rfl⟩, ?_, ?_⟩
  · exact find_position_21_entries.1 [hand21] 0 hand21 480 640 3 false rfl rfl
  · exact find_position_21_entries.2 ⟨some ⟨some [hand21]⟩⟩ ⟨[480, 640, 3]⟩
      0 false ⟨some ⟨some [hand21]⟩⟩ (landmarkLoop 480 640 hand21.landmark 0)
      (by
        intro r hands hand hr hm hmem
        injection hr with hr
        subst hr
        injection hm with hm
        subst hm
        rw [List.mem_singleton] at hmem
        subst hmem
        rfl)
      rfl

/-- C7: pixel coordinates are truncated (not rounded) products of the
normalized coordinate and the frame dimension: in general entry 0 for
a single landmark (x, y) is [0, int(x*width), int(y*height)], and
concretely (0.5, 0.5) on a 640-wide, 480-high frame gives (320, 240),
(0, 0) gives (0, 0), (1, 1) on a 200-wide, 100-high frame gives
(200, 100), and (0.539, 0.5) on the 640x480 frame gives (344, 240)
where rounding would give 345. -/
theorem find_position_truncation :
    (∀ (x y : ℚ) (height width channels : Nat) (draw : Bool),
      find_position (singlePointDetector x y) ⟨[height, width, channels]⟩
          0 draw =
        Except.ok (singlePointDetector x y,
          [[0, pyInt (x * width), pyInt (y * height)]])) ∧
    find_position (singlePointDetector (1/2) (1/2)) ⟨[480, 640, 3]⟩ 0 true =
      Except.ok (singlePointDetector (1/2) (1/2), [[0, 320, 240]]) ∧
    find_position (singlePointDetector 0 0) ⟨[480, 640, 3]⟩ 0 true =
      Except.ok (singlePointDetector 0 0, [[0, 0, 0]]) ∧
    find_position (singlePointDetector 1 1) ⟨[100, 200, 3]⟩ 0 true =
      Except.ok (singlePointDetector 1 1, [[0, 200, 100]]) ∧
    find_position (singlePointDetector (539/1000) (1/2)) ⟨[480, 640, 3]⟩
        0 true =
      Except.ok (singlePointDetector (539/1000) (1/2), [[0, 344, 240]]) := by
  have hgen : ∀ (x y : ℚ) (height width channels : Nat) (draw : Bool),
      find_position (singlePointDetector x y) ⟨[height, width, channels]⟩
          0 draw =
        Except.ok (singlePointDetector x y,
          [[0, pyInt (x * width), pyInt (y * height)]]) := by
    intro x y height width channels draw
    rfl
  refine ⟨hgen, ?_, ?_, ?_, ?_⟩
  · rw [hgen]
    norm_num [pyInt]
  · rw [hgen]
    norm_num [pyInt]
  · rw [hgen]
    norm_num [pyInt]
  · rw [hgen]
    norm_num [pyInt]

/-- C8: find_hands raises the invalid-input ValueError on an absent
(None) frame, on a frame whose shape is not 3-dimensional, and on a
3-dimensional frame whose channel count differs from 3; on a valid
3-channel frame it succeeds for every detection outcome, in
particular when zero hands are detected. -/
theorem find_hands_invalid_frame :
    (∀ (self : HandDetector) (r : MPResults) (draw : Bool),
      find_hands self none r draw = Except.error PyError.valueError) ∧
    (∀ (self : HandDetector) (r : MPResults) (draw : Bool) (img : Image),
      img.shape.length ≠ 3 →
      find_hands self (some img) r draw = Except.error PyError.valueError) ∧
    (∀ (self : HandDetector) (r : MPResults) (draw : Bool) (img : Image)
        (h w c : Nat),
      img.shape = [h, w, c] → c ≠ 3 →
      find_hands self (some img) r draw = Except.error PyError.valueError) ∧
    (∀ (self : HandDetector) (r : MPResults) (draw : Bool) (img : Image)
        (h w : Nat),
      img.shape = [h, w, 3] →
      find_hands self (some img) r draw = Except.ok (⟨some r⟩, img)) := by
  refine ⟨fun self r draw => rfl, ?_, ?_, ?_⟩
  · intro self r draw img hlen
    simp [find_hands, hlen]
  · intro self r draw img h w c hs hc
    simp [find_hands, hs, hc]
  · intro self r draw img h w hs
    simp [find_hands, hs]

/-- Witness for C8: a 2-dimensional frame, a 1-channel frame, and a
valid 3-channel frame with a zero-hand detection result. -/
theorem find_hands_invalid_frame_witness :
    (((⟨[480, 640]⟩ : Image).shape.length ≠ 3) ∧
      ((⟨[480, 640, 1]⟩ : Image).shape = [480, 640, 1]) ∧
      ((1 : Nat) ≠ 3) ∧
      ((⟨[480, 640, 3]⟩ : Image).shape = [480, 640, 3])) ∧
    find_hands ⟨none⟩ (some ⟨[480, 640]⟩) ⟨none⟩ false =
      Except.error PyError.valueError ∧
    find_hands ⟨none⟩ (some ⟨[480, 640, 1]⟩) ⟨none⟩ false =
      Except.error PyError.valueError ∧
    find_hands ⟨none⟩ (some ⟨[480, 640, 3]⟩) ⟨none⟩ false =
      Except.ok (⟨some ⟨none⟩⟩, ⟨[480, 640, 3]⟩) :=
  ⟨⟨by decide, rfl, by decide, rfl⟩,
   find_hands_invalid_frame.2.1 ⟨none⟩ ⟨none⟩ false ⟨[480, 640]⟩ (by decide),
   find_hands_invalid_frame.2.2.1 ⟨none⟩ ⟨none⟩ false ⟨[480, 640, 1]⟩
     480 640 1 rfl (by decide),
   find_hands_invalid_frame.2.2.2 ⟨none⟩ ⟨none⟩ false ⟨[480, 640, 3]⟩
     480 640 rfl⟩

/-- C9: find_distance mirrors its frame argument in its result (on
success the returned frame placeholder is exactly the frame that was
passed in, absent when absent), and its distance and coordinate-list
components do not depend on the draw flag or on whether a frame was
supplied. -/
theorem find_distance_frame_mirroring :
    (∀ (self : HandDetector) (p1 p2 : List ℚ) (fr : Option Image)
        (draw : Bool) (out : HandDetector × ℝ × Option Image × List ℚ),
      find_distance self p1 p2 fr draw = Except.ok out →
      out.2.2.1 = fr) ∧
    (∀ (self : HandDetector) (p1 p2 : List ℚ) (fr fr2 : Option Image)
        (draw draw2 : Bool),
      distOf (find_distance self p1 p2 fr draw) =
        distOf (find_distance self p1 p2 fr2 draw2) ∧
      coordsOf (find_distance self p1 p2 fr draw) =
        coordsOf (find_distance self p1 p2 fr2 draw2)) := by
  constructor
  · intro self p1 p2 fr draw out hok
    cases h1 : extractCoords p1 with
    | error e =>
      simp only [find_distance, h1] at hok
      exact Except.noConfusion hok
    | ok v =>
      obtain ⟨x1, y1⟩ := v
      cases h2 : extractCoords p2 with
      | error e =>
        simp only [find_distance, h1, h2] at hok
        exact Except.noConfusion hok
      | ok w =>
        obtain ⟨x2, y2⟩ := w
        simp only [find_distance, h1, h2] at hok
        injection hok with hok2
        rw [← hok2]
  · intro self p1 p2 fr fr2 draw draw2
    cases h1 : extractCoords p1 with
    | error e =>
      exact ⟨by simp [find_distance, h1, distOf],
        by simp [find_distance, h1, coordsOf]⟩
    | ok v =>
      obtain ⟨x1, y1⟩ := v
      cases h2 : extractCoords p2 with
      | error e =>
        exact ⟨by simp [find_distance, h1, h2, distOf],
          by simp [find_distance, h1, h2, coordsOf]⟩
      | ok w =>
        obtain ⟨x2, y2⟩ := w
        exact ⟨by simp [find_distance, h1, h2, distOf],
          by simp [find_distance, h1, h2, coordsOf]⟩

/-- Witness for C9 at the points [0,0], [3,4] with a supplied frame. -/
theorem find_distance_frame_mirroring_witness :
    find_distance ⟨none⟩ [0, 0] [3, 4] (some ⟨[480, 640, 3]⟩) true =
      Except.ok (⟨none⟩,
        Real.sqrt ((((3 : ℚ) - 0) ^ 2 + ((4 : ℚ) - 0) ^ 2 : ℚ) : ℝ),
        some ⟨[480, 640, 3]⟩, [0, 0, 3, 4]) ∧
    ((⟨none⟩,
        Real.sqrt ((((3 : ℚ) - 0) ^ 2 + ((4 : ℚ) - 0) ^ 2 : ℚ) : ℝ),
        some ⟨[480, 640, 3]⟩, [0, 0, 3, 4]) :
      HandDetector × ℝ × Option Image × List ℚ).2.2.1 =
      some ⟨[480, 640, 3]⟩ := by
  have h := find_distance_pair_eq ⟨none⟩ (some ⟨[480, 640, 3]⟩) true 0 0 3 4
  exact ⟨h, find_distance_frame_mirroring.1 ⟨none⟩ [0, 0] [3, 4]
    (some ⟨[480, 640, 3]⟩) true _ h⟩

/-- C10: only find_hands writes the cached detection result: every
successful find_position or find_distance call returns the detector
state unchanged, while every successful find_hands call stores
exactly the detection result of the current invocation. -/
theorem results_cache_discipline :
    (∀ (self : HandDetector) (img : Image) (i : Int) (draw : Bool)
        (out : HandDetector × List (List Int)),
      find_position self img i draw = Except.ok out → out.1 = self) ∧
    (∀ (self : HandDetector) (p1 p2 : List ℚ) (fr : Option Image)
        (draw : Bool) (out : HandDetector × ℝ × Option Image × List ℚ),
      find_distance self p1 p2 fr draw = Except.ok out → out.1 = self) ∧
    (∀ (self : HandDetector) (img : Option Image) (r : MPResults)
        (draw : Bool) (out : HandDetector × Image),
      find_hands self img r draw = Except.ok out →
      out.1.results = some r) := by
  refine ⟨?_, ?_, ?_⟩
  · intro self img i draw out hfp
    obtain ⟨res⟩ := self
    cases res with
    | none =>
      injection hfp with hfp2
      rw [← hfp2]
    | some r =>
      obtain ⟨multi⟩ := r
      cases multi with
      | none =>
        injection hfp with hfp2
        rw [← hfp2]
      | some hands =>
        simp only [find_position] at hfp
        by_cases hN : hands.isEmpty
        · rw [if_pos hN] at hfp
          injection hfp with hfp2
          rw [← hfp2]
        · rw [if_neg hN] at hfp
          by_cases hL : (hands.length : Int) ≤ i
          · rw [if_pos hL] at hfp
            injection hfp with hfp2
            rw [← hfp2]
          · rw [if_neg hL] at hfp
            cases hpg : pyGet hands i with
            | error e =>
              simp only [hpg] at hfp
              exact Except.noConfusion hfp
            | ok hand =>
              simp only [hpg] at hfp
              by_cases hE : hand.landmark.isEmpty
              · rw [if_pos hE] at hfp
                injection hfp with hfp2
                rw [← hfp2]
              · rw [if_neg hE] at hfp
                cases hs : img.shape with
                | nil =>
                  simp only [hs] at hfp
                  exact Except.noConfusion hfp
                | cons s1 rest1 =>
                  cases rest1 with
                  | nil =>
                    simp only [hs] at hfp
                    exact Except.noConfusion hfp
                  | cons s2 rest2 =>
                    cases rest2 with
                    | nil =>
                      simp only [hs] at hfp
                      exact Except.noConfusion hfp
                    | cons s3 rest3 =>
                      cases rest3 with
                      | nil =>
                        simp only [hs] at hfp
                        injection hfp with hfp2
                        rw [← hfp2]
                      | cons s4 rest4 =>
                        simp only [hs] at hfp
                        exact Except.noConfusion hfp
  · intro self p1 p2 fr draw out hok
    cases h1 : extractCoords p1 with
    | error e =>
      simp only [find_distance, h1] at hok
      exact Except.noConfusion hok
    | ok v =>
      obtain ⟨x1, y1⟩ := v
      cases h2 : extractCoords p2 with
      | error e =>
        simp only [find_distance, h1, h2] at hok
        exact Except.noConfusion hok
      | ok w =>
        obtain ⟨x2, y2⟩ := w
        simp only [find_distance, h1, h2] at hok
        injection hok with hok2
        rw [← hok2]
  · intro self img r draw out hok
    cases img with
    | none => exact Except.noConfusion hok
    | some im =>
      simp only [find_hands] at hok
      by_cases h1 : im.shape.length ≠ 3
      · rw [if_pos h1] at hok
        exact Except.noConfusion hok
      · rw [if_neg h1] at hok
        by_cases h2 : im.shape.get? 2 ≠ some 3
        · rw [if_pos h2] at hok
          exact Except.noConfusion hok
        · rw [if_neg h2] at hok
          injection hok with hok2
          rw [← hok2]

/-- Witness for C10: one successful call of each method. -/
theorem results_cache_discipline_witness :
    (find_position ⟨none⟩ ⟨[480, 640, 3]⟩ 0 false =
        Except.ok ((⟨none⟩ : HandDetector), ([] : List (List Int))) ∧
      ((⟨none⟩ : HandDetector), ([] : List (List Int))).1 = ⟨none⟩) ∧
    (find_distance ⟨none⟩ [0, 0] [3, 4] none false =
        Except.ok (⟨none⟩,
          Real.sqrt ((((3 : ℚ) - 0) ^ 2 + ((4 : ℚ) - 0) ^ 2 : ℚ) : ℝ),
          none, [0, 0, 3, 4]) ∧
      ((⟨none⟩,
          Real.sqrt ((((3 : ℚ) - 0) ^ 2 + ((4 : ℚ) - 0) ^ 2 : ℚ) : ℝ),
          none, [0, 0, 3, 4]) :
        HandDetector × ℝ × Option Image × List ℚ).1 = ⟨none⟩) ∧
    (find_hands ⟨none⟩ (some ⟨[480, 640, 3]⟩) ⟨none⟩ false =
        Except.ok (⟨some ⟨none⟩⟩, ⟨[480, 640, 3]⟩) ∧
      ((⟨some ⟨none⟩⟩, (⟨[480, 640, 3]⟩ : Image)) :
        HandDetector × Image).1.results = some ⟨none⟩) := by
  have hd := find_distance_pair_eq ⟨none⟩ none false 0 0 3 4
  refine ⟨⟨rfl, ?_⟩, ⟨hd, ?_⟩, ⟨rfl, ?_⟩⟩
  · exact results_cache_discipline.1 ⟨none⟩ ⟨[480, 640, 3]⟩ 0 false
      (⟨none⟩, []) rfl
  · exact results_cache_discipline.2.1 ⟨none⟩ [0, 0] [3, 4] none false _ hd
  · exact results_cache_discipline.2.2 ⟨none⟩ (some ⟨[480, 640, 3]⟩) ⟨none⟩
      false (⟨some ⟨none⟩⟩, ⟨[480, 640, 3]⟩) rfl
